import Mathlib

/-!
Shallow embedding of the RAGulate backend generation pipeline
(`Backend/backend_generate_prompt.py` and the options normalizer of
`Backend/backend_api.py`), together with theorems settling the claims
about options resolution, history windowing, engine caching and the
error handling of the query path.

Modelling conventions:
* Dynamically typed Python values that can sit in a stored options
  document are modelled by `PyVal`.  Non-integer numerics and container
  values are folded into `PyVal.vOther`; no claim depends on coercing
  such a value to an integer, only on the fact that it is not a `bool`
  or `str` and that `int()` of it is not needed.
* Python exceptions are modelled by `Except PyExn`.
* The external MongoDB collections are modelled as lookup functions
  passed in as parameters; the chat-log store returns the turns of a
  session already sorted by timestamp ascending (oldest first), which is
  what `collection.find(...).sort("timestamp", 1)` guarantees.
* The awaited result of `asyncio.wait_for(asyncio.to_thread(rag.query,
  query, param), timeout=timeout_s)` is abstracted by `QueryOutcome`:
  `ok` carries the string returned by the engine, `timeout` models
  `asyncio.TimeoutError`, and `err msg` models any other exception `e`
  with `msg = str(e)`.
-/

/-- A dynamically typed Python value stored in an options document. -/
inductive PyVal where
  | vBool (b : Bool)
  | vInt (n : Int)
  | vStr (s : String)
  | vNone
  | vOther
deriving DecidableEq

/-- Python `int(s)` on a string: strip surrounding whitespace, optional
sign, then decimal digits.  Returns `none` when `int()` raises. -/
def py_str_to_int (s : String) : Option Int :=
  let t := s.trim
  let sgn : Int := if t.startsWith "-" then -1 else 1
  let digits := if t.startsWith "-" || t.startsWith "+" then t.drop 1 else t
  if digits.length > 0 && digits.data.all Char.isDigit then
    some (sgn * digits.data.foldl (fun a c => a * 10 + ((c.toNat : Int) - 48)) 0)
  else
    none

/-- Python `int(v)` on a dynamically typed value: booleans coerce to
0/1 (`bool` is an `int` subclass), integers are the identity, strings
are parsed, everything else raises (`none`). -/
def py_int : PyVal → Option Int
  | .vBool b => some (if b then 1 else 0)
  | .vInt n => some n
  | .vStr s => py_str_to_int s
  | .vNone => none
  | .vOther => none

/-- Python truthiness `bool(v)`.  `vOther` (containers, floats, ...) is
approximated as truthy; no claim depends on this field. -/
def py_truthy : PyVal → Bool
  | .vBool b => b
  | .vInt n => n != 0
  | .vStr s => s != ""
  | .vNone => false
  | .vOther => true

/-- A stored options dictionary: each key either absent (`none`) or
holding an arbitrarily typed value.  Models the `options` sub-document
in the `usermanagement` collection (and the raw dict handed to the API
normalizer). -/
structure StoredOptions where
  chatHistory : Option PyVal := none
  timeout : Option PyVal := none
  customPrompt : Option PyVal := none
  queryMode : Option PyVal := none
  llmProvider : Option PyVal := none
  language : Option PyVal := none
  responseType : Option PyVal := none
deriving DecidableEq

/-- The value stored under the `options` key of a user document: either
a dictionary or some non-dict value (string, number, null, ...). -/
inductive OptionsVal where
  | dict (o : StoredOptions)
  | prim (v : PyVal)
deriving DecidableEq

/-- A user document as returned by
`user_collection.find_one({"username": u}, {"_id": 0, "options": 1})`:
the `options` field may be absent. -/
structure UserDoc where
  options : Option OptionsVal := none
deriving DecidableEq

/-- Python exceptions relevant to this development. -/
inductive PyExn where
  | runtimeError (msg : String)
  | attributeError
  | otherError (msg : String)
deriving DecidableEq

/-- The fully resolved options record produced by `_get_user_options`. -/
structure UserOptions where
  chatHistory : Bool
  timeout : Int
  customPrompt : String
  queryMode : String
  llmProvider : String
deriving DecidableEq

/-- `_ALLOWED_QUERY_MODES` from `backend_generate_prompt.py`. -/
def allowed_query_modes : List String := ["local", "global", "hybrid", "naive", "mix"]

/-- `_ALLOWED_LLM_PROVIDERS` from `backend_generate_prompt.py`. -/
def allowed_llm_providers : List String := ["hf", "openrouter"]

/-- `DEFAULT_OPTIONS` from `backend_generate_prompt.py`. -/
def default_user_options : UserOptions :=
  { chatHistory := true
    timeout := 180
    customPrompt := ""
    queryMode := "naive"
    llmProvider := "hf" }

/-- Field-by-field validation performed by `_get_user_options` on the
stored options dictionary (source lines 321-338). -/
def validate_stored_options (o : StoredOptions) : UserOptions :=
  { chatHistory :=
      match o.chatHistory with
      | some (.vBool b) => b
      | _ => true
    timeout :=
      match o.timeout with
      | none => max 5 (min (180 : Int) 600)
      | some v =>
        match py_int v with
        | some t => max 5 (min t 600)
        | none => 180
    customPrompt :=
      match o.customPrompt with
      | some (.vStr s) => s
      | _ => ""
    queryMode :=
      match o.queryMode with
      | some (.vStr s) => if s ∈ allowed_query_modes then s else "naive"
      | _ => "naive"
    llmProvider :=
      match o.llmProvider with
      | some (.vStr s) => if s ∈ allowed_llm_providers then s else "hf"
      | _ => "hf" }

/-- `_get_user_options(username)`.  `find_user` models
`user_collection.find_one({"username": u}, ...)`.  A falsy username
(absent or empty) yields the defaults; a missing document or missing
`options` field yields validation of the empty dict; a non-dict
`options` value makes the subsequent `opts.get(...)` raise
`AttributeError`. -/
def get_user_options (username : Option String) (find_user : String → Option UserDoc) :
    Except PyExn UserOptions :=
  match username with
  | none => .ok default_user_options
  | some u =>
    if u = "" then .ok default_user_options
    else
      match find_user u with
      | none => .ok (validate_stored_options {})
      | some d =>
        match d.options with
        | none => .ok (validate_stored_options {})
        | some (.dict o) => .ok (validate_stored_options o)
        | some (.prim _) => .error .attributeError

/-- `_ALLOWED_LANGS` from `backend_api.py`. -/
def allowed_langs : List String := ["en", "es", "fr", "de"]

/-- The result shape of `_normalize_options` in `backend_api.py`.
`responseType` is passed through unvalidated by the source, hence typed
as a raw value. -/
structure ApiOptions where
  chatHistory : Bool
  language : String
  queryMode : String
  timeout : Int
  customPrompt : String
  responseType : PyVal
  llmProvider : String
deriving DecidableEq

/-- `_normalize_options(opts)` from `backend_api.py` (lines 570-605).
A non-dict argument is replaced by the empty dict.  The API defaults are
`{"chatHistory": False, "language": "en", "timeout": 30,
"customPrompt": ""}`; `queryMode` falls back to `"naive"` and
`llmProvider` to `"hf"` via `.get` defaults; the timeout bounds are
`_TIMEOUT_MIN = 5` and `_TIMEOUT_MAX = 300`. -/
def normalize_options (opts_in : OptionsVal) : ApiOptions :=
  let opts : StoredOptions :=
    match opts_in with
    | .dict o => o
    | .prim _ => {}
  { chatHistory :=
      match opts.chatHistory with
      | some v => py_truthy v
      | none => false
    language :=
      match opts.language with
      | some (.vStr s) => if s ∈ allowed_langs then s else "en"
      | some _ => "en"
      | none => "en"
    queryMode :=
      match opts.queryMode with
      | some (.vStr s) => if s ∈ allowed_query_modes then s else "naive"
      | some _ => "naive"
      | none => "naive"
    timeout :=
      match opts.timeout with
      | none => max 5 (min (30 : Int) 300)
      | some v =>
        match py_int v with
        | some t => max 5 (min t 300)
        | none => max 5 (min (30 : Int) 300)
    customPrompt :=
      match opts.customPrompt with
      | some (.vStr s) => s
      | _ => ""
    responseType :=
      match opts.responseType with
      | some v => v
      | none => .vStr "Multiple Paragraphs"
    llmProvider :=
      match opts.llmProvider with
      | some (.vStr s) => if s ∈ allowed_llm_providers then s else "hf"
      | _ => "hf" }

/-- Substring containment on character lists, following the semantics of
the Python expression `needle in hay`. -/
def chars_contains (needle : List Char) : List Char → Bool
  | [] => needle.isEmpty
  | c :: rest => needle.isPrefixOf (c :: rest) || chars_contains needle rest

/-- Python `needle in hay` for strings. -/
def str_contains (hay needle : String) : Bool :=
  chars_contains needle.data hay.data

/-- Outcome of the awaited engine call inside `_rag_query`. -/
inductive QueryOutcome where
  | ok (result : String)
  | timeout
  | err (msg : String)
deriving DecidableEq

/-- The sentinel text returned by `_rag_query` on `asyncio.TimeoutError`. -/
def timeout_sentinel (timeout_s : Int) : String :=
  "[Timeout] The request exceeded the configured timeout of " ++ toString timeout_s ++
    " seconds."

/-- The dedicated diagnostic returned by `_rag_query` when the error
text matches the embedding-dimension-mismatch signature. -/
def emb_dim_diagnostic : String :=
  "[Error] Query failed due to an embedding dimension mismatch. " ++
    "Your existing indexes may have been built with a different embedding size. " ++
    "Ensure you\x27re consistently using \x27sentence-transformers/all-MiniLM-L6-v2\x27 (384-dim) " ++
    "or rebuild your LightRAG storages to match."

/-- `_rag_query(rag, query, param, timeout_s)` (lines 372-406), as a
function of the abstracted outcome of the awaited engine call.  Every
branch returns a string: the success result verbatim, the timeout
sentinel, or an error classification of `str(e)`. -/
def rag_query (outcome : QueryOutcome) (timeout_s : Int) : String :=
  match outcome with
  | .ok result => result
  | .timeout => timeout_sentinel timeout_s
  | .err msg =>
    if str_contains msg "shapes" && str_contains msg "!=" && str_contains msg "dim" then
      emb_dim_diagnostic
    else
      "[Error] Query failed: " ++ msg

/-- One chat-log document for a session; `role` and `content` may be
absent, in which case `entry.get` supplies `"user"` and `""`. -/
structure ChatEntry where
  role : Option String := none
  content : Option String := none
deriving DecidableEq

/-- A `{role, content}` pair handed to the LLM as history. -/
structure ChatMessage where
  role : String
  content : String
deriving DecidableEq

/-- `_HISTORY_LIMIT` from `backend_generate_prompt.py`. -/
def HISTORY_LIMIT : Nat := 6

/-- The mapping applied to each retained entry by `format_conversation`. -/
def entry_to_message (e : ChatEntry) : ChatMessage :=
  { role := e.role.getD "user", content := e.content.getD "" }

/-- `format_conversation(entries)` (lines 353-360): drop the final
(most recent) entry, map to `{role, content}` pairs, keep the last
`_HISTORY_LIMIT` of them. -/
def format_conversation (entries : List ChatEntry) : List ChatMessage :=
  let conv := entries.dropLast.map entry_to_message
  conv.drop (conv.length - HISTORY_LIMIT)

/-- `get_last_conversations(collection_ref, session_id)` (lines
340-351): the store returns all turns of the session sorted by
timestamp ascending; `chat_db` models that sorted read. -/
def get_last_conversations (chat_db : String → List ChatEntry) (session_id : String) :
    List ChatEntry :=
  chat_db session_id

/-- The `QueryParam` object built by `_build_queryparam` and mutated by
`generate_output`. -/
structure QueryParam where
  mode : String
  user_prompt : Option String := none
  conversation_history : Option (List ChatMessage) := none
deriving DecidableEq

/-- `_build_queryparam(custom_prompt, query_mode)` (lines 362-370).  In
the generation path `custom_prompt` is always a string (it comes out of
`_get_user_options`), and the best-effort `qp.user_prompt` assignment
succeeds on the engine in use, so it is modelled as a plain field set. -/
def build_queryparam (custom_prompt : String) (query_mode : String) : QueryParam :=
  let mode := if query_mode ∈ allowed_query_modes then query_mode else "naive"
  let qp : QueryParam := { mode := mode }
  if custom_prompt.trim ≠ "" then { qp with user_prompt := some custom_prompt.trim } else qp

/-- The error message raised by `llm_model_func_openrouter` when the
`OPENROUTER_API_KEY` environment variable is falsy. -/
def OPENROUTER_KEY_ERROR : String :=
  "OPENROUTER_API_KEY is not set but \x27openrouter\x27 provider was selected."

/-- `llm_model_func_openrouter(prompt, ...)` (lines 197-240), restricted
to what the claims depend on: the guard `if not OPENROUTER_API_KEY`
raises `RuntimeError` for a missing or empty key, and only otherwise is
the remote chat-completions call (abstracted by `remote`) performed.
This function is handed to the engine at construction time and is
invoked only when the engine runs a query, never during engine
initialization. -/
def llm_model_func_openrouter (api_key : Option String)
    (remote : String → Except PyExn String) (prompt : String) : Except PyExn String :=
  match api_key with
  | none => .error (.runtimeError OPENROUTER_KEY_ERROR)
  | some k =>
    if k = "" then .error (.runtimeError OPENROUTER_KEY_ERROR)
    else remote prompt

/-- A constructed LightRAG instance, identified so that caching can be
observed; `llm_model_name` records which completion backend it was
built with. -/
structure RagEngine where
  id : Nat
  llm_model_name : String
deriving DecidableEq

/-- The module-level globals `_rag_hf` and `_rag_or` (lines 242-243). -/
structure RagState where
  rag_hf : Option RagEngine := none
  rag_or : Option RagEngine := none
deriving DecidableEq

/-- The environment of one `generate_output` call: the external stores,
the two initializers, and the abstracted behaviour of the awaited engine
query.  `init_hf` and `init_or` model `initialize_rag_hf()` and
`initialize_rag_openrouter()` (LightRAG construction plus
`initialize_storages` and `initialize_pipeline_status`), which may fail;
neither reads `OPENROUTER_API_KEY` — the completion function is stored
in the engine at construction and not invoked during initialization. -/
structure Env where
  user_by_session : String → Option String
  find_user : String → Option UserDoc
  chat_db : String → List ChatEntry
  init_hf : Except PyExn RagEngine
  init_or : Except PyExn RagEngine
  query_outcome : RagEngine → String → QueryParam → Int → QueryOutcome

/-- Python `s.lower()` restricted to its ASCII case mapping, which is
all the provider identifiers exercise. -/
def py_lower (s : String) : String :=
  ⟨s.data.map Char.toLower⟩

/-- `get_rag(provider)` (lines 268-290): normalize the provider string
with `(provider or "hf").lower()`, then return the cached engine for
that provider or initialize and cache it.  The whole body runs under
`_rag_init_lock`, so it is modelled as one atomic state transition; on
an initialization failure the exception propagates and the cached slot
is left unchanged (`None`). -/
def get_rag (env : Env) (st : RagState) (provider : Option String) :
    Except PyExn (RagEngine × RagState) :=
  let raw := match provider with
             | none => "hf"
             | some s => if s = "" then "hf" else s
  let prov := py_lower raw
  if prov = "openrouter" then
    match st.rag_or with
    | some r => .ok (r, st)
    | none =>
      match env.init_or with
      | .ok r => .ok (r, { st with rag_or := some r })
      | .error e => .error e
  else
    match st.rag_hf with
    | some r => .ok (r, st)
    | none =>
      match env.init_hf with
      | .ok r => .ok (r, { st with rag_hf := some r })
      | .error e => .error e

/-- `generate_output(user_input, session_id)` (lines 408-445): resolve
the owning username, resolve options, acquire the engine for the
resolved provider, build the query parameters, attach the non-empty
conversation history when enabled, and return the result of
`_rag_query`.  The source wraps none of these steps in a handler, so
exceptions from options resolution or engine initialization propagate,
while `_rag_query` itself always produces a string. -/
def generate_output (env : Env) (st : RagState) (user_input : String) (session_id : String) :
    Except PyExn (String × RagState) :=
  let username := env.user_by_session session_id
  match get_user_options username env.find_user with
  | .error e => .error e
  | .ok options =>
    match get_rag env st (some options.llmProvider) with
    | .error e => .error e
    | .ok (rag, st1) =>
      let param := build_queryparam options.customPrompt options.queryMode
      let param :=
        if options.chatHistory then
          let conv := format_conversation (get_last_conversations env.chat_db session_id)
          if conv ≠ [] then { param with conversation_history := some conv } else param
        else param
      .ok (rag_query (env.query_outcome rag user_input param options.timeout) options.timeout,
           st1)

/-- An environment in which both engine initializers fail with a
non-configuration storage error; the query oracle is unreachable. -/
def env_init_failure : Env :=
  { user_by_session := fun _ => none
    find_user := fun _ => none
    chat_db := fun _ => []
    init_hf := Except.error (PyExn.otherError "storage init failed")
    init_or := Except.error (PyExn.otherError "storage init failed")
    query_outcome := fun _ _ _ _ => QueryOutcome.ok "unreachable" }

/-- A remote chat-completions call that is never reached because the
credential guard fires first. -/
def remote_unused : String → Except PyExn String := fun _ => Except.ok "unreachable"

/-- An environment for a user whose stored options select the
`openrouter` provider while `OPENROUTER_API_KEY` is absent.  Engine
initialization succeeds (it never consults the key); when the engine
runs the query it invokes the stored completion function, whose
`RuntimeError` surfaces as the query failure `str(e)` — exactly the
propagation behaviour the engine exhibits when its completion backend
raises. -/
def env_missing_key : Env :=
  { user_by_session := fun _ => some "bob"
    find_user := fun _ =>
      some { options := some (OptionsVal.dict { llmProvider := some (PyVal.vStr "openrouter") }) }
    chat_db := fun _ => []
    init_hf := Except.ok { id := 0, llm_model_name := "hf:mistralai/Mistral-7B-Instruct-v0.2" }
    init_or := Except.ok { id := 1, llm_model_name := "openrouter:mistralai/mistral-nemo" }
    query_outcome := fun _ q _ _ =>
      match llm_model_func_openrouter none remote_unused q with
      | Except.ok s => QueryOutcome.ok s
      | Except.error (PyExn.runtimeError m) => QueryOutcome.err m
      | Except.error PyExn.attributeError => QueryOutcome.err "AttributeError"
      | Except.error (PyExn.otherError m) => QueryOutcome.err m }

/-- An environment where both initializers succeed and every query
returns a fixed answer. -/
def env_query_ok : Env :=
  { user_by_session := fun _ => none
    find_user := fun _ => none
    chat_db := fun _ => []
    init_hf := Except.ok { id := 7, llm_model_name := "hf:mistralai/Mistral-7B-Instruct-v0.2" }
    init_or := Except.ok { id := 8, llm_model_name := "openrouter:mistralai/mistral-nemo" }
    query_outcome := fun _ _ _ _ => QueryOutcome.ok "the answer" }

/-- A three-turn session used to exercise the history window. -/
def hist_example : List ChatEntry :=
  [ { role := some "user", content := some "q1" },
    { role := some "assistant", content := some "a1" },
    { role := some "user", content := some "q2" } ]



theorem chars_contains_of_isPrefixOf (n l : List Char) (h : n.isPrefixOf l = true) :
    chars_contains n l = true := by
  cases l with
  | nil =>
    have hn : n = [] := by
      simpa [List.isPrefixOf_iff_prefix, List.prefix_nil] using h
    simp [chars_contains, hn]
  | cons c rest => simp [chars_contains, h]

theorem chars_contains_append (n pre post : List Char) :
    chars_contains n (pre ++ (n ++ post)) = true := by
  induction pre with
  | nil =>
    apply chars_contains_of_isPrefixOf
    simp [List.isPrefixOf_iff_prefix]
  | cons p ps ih => simp [chars_contains, ih]

theorem str_contains_sandwich (a b c : String) : str_contains (a ++ b ++ c) b = true := by
  unfold str_contains
  rw [String.data_append, String.data_append, List.append_assoc]
  exact chars_contains_append b.data a.data c.data

theorem str_contains_append_right (a b : String) : str_contains (a ++ b) b = true := by
  have h := str_contains_sandwich a b ""
  rwa [String.append_empty] at h

set_option maxRecDepth 4096 in
theorem generic_error_ne_diag (msg : String) :
    ("[Error] Query failed: " ++ msg) ≠ emb_dim_diagnostic := by
  intro h
  have h2 : ("[Error] Query failed: ".data ++ msg.data)[20]? = emb_dim_diagnostic.data[20]? := by
    rw [← String.data_append, h]
  rw [List.getElem?_append, if_pos (by decide)] at h2
  have e1 : "[Error] Query failed: ".data[20]? = some ':' := by decide
  have e2 : emb_dim_diagnostic.data[20]? = some ' ' := by decide
  rw [e1, e2] at h2
  simp at h2

theorem validate_in_domain (o : StoredOptions) :
    5 ≤ (validate_stored_options o).timeout ∧ (validate_stored_options o).timeout ≤ 600 ∧
      (validate_stored_options o).queryMode ∈ allowed_query_modes ∧
      (validate_stored_options o).llmProvider ∈ allowed_llm_providers := by
  refine ⟨?_, ?_, ?_, ?_⟩
  · simp only [validate_stored_options]
    rcases o.timeout with _ | v
    · norm_num
    · rcases hpi : py_int v with _ | t
      · simp [hpi]
      · simp only [hpi]
        exact le_max_left 5 _
  · simp only [validate_stored_options]
    rcases o.timeout with _ | v
    · norm_num
    · rcases hpi : py_int v with _ | t
      · simp [hpi]
      · simp only [hpi]
        exact max_le (by norm_num) (min_le_right t 600)
  · simp only [validate_stored_options]
    rcases o.queryMode with _ | v
    · decide
    · rcases v with b | n | s | _ | _
      · exact (by decide : "naive" ∈ allowed_query_modes)
      · exact (by decide : "naive" ∈ allowed_query_modes)
      · by_cases hs : s ∈ allowed_query_modes
        · simp [hs]
        · simp [hs]
          decide
      · exact (by decide : "naive" ∈ allowed_query_modes)
      · exact (by decide : "naive" ∈ allowed_query_modes)
  · simp only [validate_stored_options]
    rcases o.llmProvider with _ | v
    · decide
    · rcases v with b | n | s | _ | _
      · exact (by decide : "hf" ∈ allowed_llm_providers)
      · exact (by decide : "hf" ∈ allowed_llm_providers)
      · by_cases hs : s ∈ allowed_llm_providers
        · simp [hs]
        · simp [hs]
          decide
      · exact (by decide : "hf" ∈ allowed_llm_providers)
      · exact (by decide : "hf" ∈ allowed_llm_providers)

/-- Claim C1 (corrected), counterexample to the claim as stated: an
engine-initialization failure — not a missing-credential configuration
error — escapes `generate_output` as an exception, on a concrete session
using the default provider. -/
theorem generate_output_init_failure_escapes :
    generate_output env_init_failure {} "hello" "session-1" =
        Except.error (PyExn.otherError "storage init failed") ∧
      PyExn.otherError "storage init failed" ≠ PyExn.runtimeError OPENROUTER_KEY_ERROR :=
  ⟨rfl, by decide⟩

/-- Claim C1 (amended): whenever options resolution and engine
acquisition succeed, `generate_output` returns exactly the text produced
by `_rag_query` — verbatim, with no exception — for every outcome of the
underlying query (timeout, engine failure, or success, where the success
result is returned unchanged). -/
theorem generate_output_returns_query_text_verbatim (env : Env) (st : RagState)
    (user_input session_id : String) (opts : UserOptions) (rag : RagEngine) (st1 : RagState)
    (hopts : get_user_options (env.user_by_session session_id) env.find_user = Except.ok opts)
    (hrag : get_rag env st (some opts.llmProvider) = Except.ok (rag, st1)) :
    ∃ param : QueryParam,
      generate_output env st user_input session_id =
        Except.ok (rag_query (env.query_outcome rag user_input param opts.timeout)
          opts.timeout, st1) ∧
      ∀ result : String,
        env.query_outcome rag user_input param opts.timeout = QueryOutcome.ok result →
        generate_output env st user_input session_id = Except.ok (result, st1) := by
  simp only [generate_output, hopts, hrag]
  refine ⟨_, rfl, ?_⟩
  intro result hres
  rw [hres]
  rfl

/-- Claim C1 witness: the amended theorem applied to a concrete
environment whose query returns a fixed answer. -/
theorem generate_output_returns_query_text_verbatim_witness :
    ∃ param : QueryParam,
      generate_output env_query_ok {} "hi" "sess" =
        Except.ok (rag_query (env_query_ok.query_outcome
            { id := 7, llm_model_name := "hf:mistralai/Mistral-7B-Instruct-v0.2" } "hi" param
            default_user_options.timeout) default_user_options.timeout,
          { rag_hf := some { id := 7, llm_model_name := "hf:mistralai/Mistral-7B-Instruct-v0.2" },
            rag_or := none }) ∧
      ∀ result : String,
        env_query_ok.query_outcome
            { id := 7, llm_model_name := "hf:mistralai/Mistral-7B-Instruct-v0.2" } "hi" param
            default_user_options.timeout = QueryOutcome.ok result →
        generate_output env_query_ok {} "hi" "sess" =
          Except.ok (result,
            { rag_hf :=
                some { id := 7, llm_model_name := "hf:mistralai/Mistral-7B-Instruct-v0.2" },
              rag_or := none }) :=
  generate_output_returns_query_text_verbatim env_query_ok {} "hi" "sess" default_user_options
    { id := 7, llm_model_name := "hf:mistralai/Mistral-7B-Instruct-v0.2" }
    { rag_hf := some { id := 7, llm_model_name := "hf:mistralai/Mistral-7B-Instruct-v0.2" },
      rag_or := none }
    rfl rfl

/-- Claim C2: when the underlying query exceeds the timeout,
`_rag_query` returns the timeout sentinel text, which mentions the
configured timeout value; the function is total, so no exception reaches
its caller. -/
theorem rag_query_timeout_returns_sentinel (t : Int) :
    rag_query QueryOutcome.timeout t = timeout_sentinel t ∧
      str_contains (timeout_sentinel t) (toString t) = true := by
  refine ⟨rfl, ?_⟩
  unfold timeout_sentinel
  exact str_contains_sandwich _ _ _

/-- Claim C3: for an exception raised by the underlying engine query,
`_rag_query` returns the dedicated embedding-dimension-mismatch
diagnostic exactly when the message contains `"shapes"`, `"!="` and
`"dim"`, and otherwise returns the generic error message, which embeds
the raw exception text. -/
theorem rag_query_error_classification (msg : String) (t : Int) :
    (rag_query (QueryOutcome.err msg) t = emb_dim_diagnostic ↔
      (str_contains msg "shapes" = true ∧ str_contains msg "!=" = true ∧
        str_contains msg "dim" = true)) ∧
    (¬(str_contains msg "shapes" = true ∧ str_contains msg "!=" = true ∧
        str_contains msg "dim" = true) →
      rag_query (QueryOutcome.err msg) t = "[Error] Query failed: " ++ msg ∧
        str_contains ("[Error] Query failed: " ++ msg) msg = true) := by
  have hb : (str_contains msg "shapes" && str_contains msg "!=" && str_contains msg "dim") = true ↔
      (str_contains msg "shapes" = true ∧ str_contains msg "!=" = true ∧
        str_contains msg "dim" = true) := by
    simp [Bool.and_eq_true, and_assoc]
  by_cases hc : (str_contains msg "shapes" && str_contains msg "!=" && str_contains msg "dim") = true
  · refine ⟨?_, fun hn => absurd (hb.mp hc) hn⟩
    have hd : rag_query (QueryOutcome.err msg) t = emb_dim_diagnostic := by
      simp [rag_query, hc]
    rw [hd]
    exact ⟨fun _ => hb.mp hc, fun _ => rfl⟩
  · rw [Bool.not_eq_true] at hc
    have hgen : rag_query (QueryOutcome.err msg) t = "[Error] Query failed: " ++ msg := by
      simp [rag_query, hc]
    refine ⟨⟨fun he => ?_, fun hsig => ?_⟩, fun _ => ⟨hgen, str_contains_append_right _ _⟩⟩
    · rw [hgen] at he
      exact absurd he (generic_error_ne_diag msg)
    · exact absurd (hb.mpr hsig) (by simp [hc])

/-- Claim C3 witness: a concrete shape-mismatch message gets the
dedicated diagnostic. -/
theorem rag_query_error_classification_witness :
    rag_query (QueryOutcome.err "Matrix shapes (1,384) != index dim 768") 30 =
      emb_dim_diagnostic :=
  (rag_query_error_classification "Matrix shapes (1,384) != index dim 768" 30).1.mpr
    ⟨by decide, by decide, by decide⟩

/-- Claim C4: a stored integer timeout outside `[5,600]` resolves, in
the generation-path resolver, to exactly `max 5 (min t 600)`, which lies
in `[5,600]`; the API-path normalizer also resolves it to a value in
`[5,600]` (it clamps to its documented bounds `[5,300]`). -/
theorem resolved_timeout_clamped (t : Int) (o : StoredOptions)
    (_hrange : t < 5 ∨ 600 < t) (hstored : o.timeout = some (PyVal.vInt t)) :
    (validate_stored_options o).timeout = max 5 (min t 600) ∧
      5 ≤ (validate_stored_options o).timeout ∧ (validate_stored_options o).timeout ≤ 600 ∧
      5 ≤ (normalize_options (OptionsVal.dict o)).timeout ∧
      (normalize_options (OptionsVal.dict o)).timeout ≤ 600 := by
  have h1 : (validate_stored_options o).timeout = max 5 (min t 600) := by
    simp [validate_stored_options, hstored, py_int]
  have h2 : (normalize_options (OptionsVal.dict o)).timeout = max 5 (min t 300) := by
    simp [normalize_options, hstored, py_int]
  refine ⟨h1, ?_, ?_, ?_, ?_⟩
  · rw [h1]; exact le_max_left 5 _
  · rw [h1]; exact max_le (by norm_num) (min_le_right t 600)
  · rw [h2]; exact le_max_left 5 _
  · rw [h2]; exact max_le (by norm_num) (le_trans (min_le_right t 300) (by norm_num))

/-- Claim C4 witness: a stored timeout of 1000 resolves into the
documented interval under both resolvers. -/
theorem resolved_timeout_clamped_witness :
    (validate_stored_options { timeout := some (PyVal.vInt 1000) }).timeout =
        max 5 (min 1000 600) ∧
      5 ≤ (validate_stored_options { timeout := some (PyVal.vInt 1000) }).timeout ∧
      (validate_stored_options { timeout := some (PyVal.vInt 1000) }).timeout ≤ 600 ∧
      5 ≤ (normalize_options (OptionsVal.dict { timeout := some (PyVal.vInt 1000) })).timeout ∧
      (normalize_options (OptionsVal.dict { timeout := some (PyVal.vInt 1000) })).timeout ≤ 600 :=
  resolved_timeout_clamped 1000 { timeout := some (PyVal.vInt 1000) }
    (Or.inr (by norm_num)) rfl

/-- Claim C5: a stored `queryMode` value that is not one of the allowed
mode strings resolves to the default mode `"naive"` under both the
generation-path resolver and the API-path normalizer. -/
theorem invalid_query_mode_falls_back_to_naive (o : StoredOptions) (v : PyVal)
    (hstored : o.queryMode = some v)
    (hinvalid : ∀ s, s ∈ allowed_query_modes → v ≠ PyVal.vStr s) :
    (validate_stored_options o).queryMode = "naive" ∧
      (normalize_options (OptionsVal.dict o)).queryMode = "naive" := by
  cases v with
  | vStr s =>
    have hs : s ∉ allowed_query_modes := fun hmem => (hinvalid s hmem) rfl
    exact ⟨by simp [validate_stored_options, hstored, hs],
      by simp [normalize_options, hstored, hs]⟩
  | vBool b => exact ⟨by simp [validate_stored_options, hstored],
      by simp [normalize_options, hstored]⟩
  | vInt n => exact ⟨by simp [validate_stored_options, hstored],
      by simp [normalize_options, hstored]⟩
  | vNone => exact ⟨by simp [validate_stored_options, hstored],
      by simp [normalize_options, hstored]⟩
  | vOther => exact ⟨by simp [validate_stored_options, hstored],
      by simp [normalize_options, hstored]⟩

/-- Claim C5 witness: the stored mode string `"fancy"` resolves to
`"naive"` under both resolvers. -/
theorem invalid_query_mode_falls_back_to_naive_witness :
    (validate_stored_options { queryMode := some (PyVal.vStr "fancy") }).queryMode = "naive" ∧
      (normalize_options
        (OptionsVal.dict { queryMode := some (PyVal.vStr "fancy") })).queryMode = "naive" :=
  invalid_query_mode_falls_back_to_naive { queryMode := some (PyVal.vStr "fancy") }
    (PyVal.vStr "fancy") rfl
    (fun s hs h => by cases h; revert hs; decide)

/-- Claim C6: for a session whose store holds `n` turns oldest-first,
history assembly returns the last `min(n-1, 6)` of the first `n-1`
turns, mapped to role/content pairs with order preserved (it is a suffix
of that mapped prefix), and is empty whenever `n ≤ 1`. -/
theorem history_windowing (chat_db : String → List ChatEntry) (session_id : String) :
    (format_conversation (get_last_conversations chat_db session_id)).length =
      min ((get_last_conversations chat_db session_id).length - 1) HISTORY_LIMIT ∧
    (∃ pre, ((get_last_conversations chat_db session_id).take
        ((get_last_conversations chat_db session_id).length - 1)).map entry_to_message =
        pre ++ format_conversation (get_last_conversations chat_db session_id)) ∧
    ((get_last_conversations chat_db session_id).length ≤ 1 →
      format_conversation (get_last_conversations chat_db session_id) = []) := by
  set es := get_last_conversations chat_db session_id with hes
  have hdl : es.dropLast = es.take (es.length - 1) := List.dropLast_eq_take es
  have hform : format_conversation es =
      (es.dropLast.map entry_to_message).drop
        ((es.dropLast.map entry_to_message).length - HISTORY_LIMIT) := rfl
  have hlen : (es.dropLast.map entry_to_message).length = es.length - 1 := by
    simp [List.length_dropLast]
  refine ⟨?_, ?_, ?_⟩
  · rw [hform, List.length_drop, hlen]
    omega
  · refine ⟨(es.dropLast.map entry_to_message).take
      ((es.dropLast.map entry_to_message).length - HISTORY_LIMIT), ?_⟩
    rw [← hdl, hform]
    exact (List.take_append_drop _ _).symm
  · intro hle
    have h0 : (es.dropLast.map entry_to_message).length = 0 := by rw [hlen]; omega
    have hnil : es.dropLast.map entry_to_message = [] :=
      List.eq_nil_of_length_eq_zero h0
    rw [hform, hnil]
    simp

/-- Claim C6 witness: the window length formula at a concrete three-turn
session. -/
theorem history_windowing_witness :
    (format_conversation (get_last_conversations (fun _ => hist_example) "sess")).length =
      min ((get_last_conversations (fun _ => hist_example) "sess").length - 1) HISTORY_LIMIT :=
  (history_windowing (fun _ => hist_example) "sess").1

/-- Claim C7 (corrected), counterexample to the claim as stated: for a
user whose stored `options` field holds a non-dict value, options
resolution raises `AttributeError` (the source calls `.get` on the
stored value without checking it is a mapping). -/
theorem get_user_options_raises_on_nondict_options :
    get_user_options (some "alice")
        (fun _ => some { options := some (OptionsVal.prim (PyVal.vStr "oops")) }) =
      Except.error PyExn.attributeError := rfl

/-- Claim C7 (amended): for every username — present, absent, or with a
stored options record that is a mapping of any shape — options
resolution never raises and returns a record whose fields all lie in
their allowed domains; an absent username yields the defaults. -/
theorem get_user_options_total_on_dict_options
    (find_user : String → Option UserDoc)
    (hdict : ∀ u d, find_user u = some d → ∀ v, d.options ≠ some (OptionsVal.prim v)) :
    (get_user_options none find_user = Except.ok default_user_options) ∧
    ∀ username : Option String, ∃ r : UserOptions,
      get_user_options username find_user = Except.ok r ∧
        5 ≤ r.timeout ∧ r.timeout ≤ 600 ∧
        r.queryMode ∈ allowed_query_modes ∧ r.llmProvider ∈ allowed_llm_providers := by
  have hdef : 5 ≤ default_user_options.timeout ∧ default_user_options.timeout ≤ 600 ∧
      default_user_options.queryMode ∈ allowed_query_modes ∧
      default_user_options.llmProvider ∈ allowed_llm_providers := by decide
  refine ⟨rfl, ?_⟩
  intro username
  rcases username with _ | u
  · exact ⟨default_user_options, rfl, hdef⟩
  · by_cases hu : u = ""
    · refine ⟨default_user_options, ?_, hdef⟩
      simp [get_user_options, hu]
    · rcases hf : find_user u with _ | d
      · refine ⟨validate_stored_options {}, ?_, validate_in_domain {}⟩
        simp [get_user_options, hu, hf]
      · rcases ho : d.options with _ | ov
        · refine ⟨validate_stored_options {}, ?_, validate_in_domain {}⟩
          simp [get_user_options, hu, hf, ho]
        · rcases ov with o | v
          · refine ⟨validate_stored_options o, ?_, validate_in_domain o⟩
            simp [get_user_options, hu, hf, ho]
          · exact absurd ho (hdict u d hf v)

/-- Claim C7 witness: the amended theorem at the store with no user
documents. -/
theorem get_user_options_total_on_dict_options_witness :
    (get_user_options none (fun _ => none) = Except.ok default_user_options) ∧
    ∀ username : Option String, ∃ r : UserOptions,
      get_user_options username (fun _ => none) = Except.ok r ∧
        5 ≤ r.timeout ∧ r.timeout ≤ 600 ∧
        r.queryMode ∈ allowed_query_modes ∧ r.llmProvider ∈ allowed_llm_providers :=
  get_user_options_total_on_dict_options (fun _ => none)
    (fun _ _ h _ => Option.noConfusion h)

set_option maxRecDepth 8192 in
/-- Claim C8 (corrected), counterexample to the claim as stated: with
the credential absent and the `openrouter` provider selected, no
configuration error is raised before the engine query — engine
acquisition succeeds, the query runs, the completion backend raises
inside it, and `_rag_query` downgrades the error to a textual result, so
`generate_output` returns normally. -/
theorem missing_key_downgraded_to_text :
    generate_output env_missing_key {} "What is RAG?" "sess-8" =
        Except.ok ("[Error] Query failed: " ++ OPENROUTER_KEY_ERROR,
          { rag_hf := none,
            rag_or := some { id := 1, llm_model_name := "openrouter:mistralai/mistral-nemo" } }) ∧
      llm_model_func_openrouter none remote_unused "What is RAG?" =
        Except.error (PyExn.runtimeError OPENROUTER_KEY_ERROR) :=
  ⟨rfl, rfl⟩

/-- Claim C8 (amended): with a falsy credential, the configuration error
is raised by the completion backend at the moment the engine invokes it
— during the query, not before — and `_rag_query` converts exactly that
error into the generic textual result. -/
theorem missing_key_raises_at_completion_call (k : Option String)
    (remote : String → Except PyExn String) (prompt : String)
    (hfalsy : k = none ∨ k = some "") :
    llm_model_func_openrouter k remote prompt =
        Except.error (PyExn.runtimeError OPENROUTER_KEY_ERROR) ∧
      ∀ t : Int, rag_query (QueryOutcome.err OPENROUTER_KEY_ERROR) t =
        "[Error] Query failed: " ++ OPENROUTER_KEY_ERROR := by
  constructor
  · rcases hfalsy with h | h <;> subst h <;> simp [llm_model_func_openrouter]
  · intro t
    have hsig : (str_contains OPENROUTER_KEY_ERROR "shapes" &&
        str_contains OPENROUTER_KEY_ERROR "!=" && str_contains OPENROUTER_KEY_ERROR "dim") =
        false := by decide
    simp [rag_query, hsig]

/-- Claim C8 witness: the amended theorem with the key entirely
absent. -/
theorem missing_key_raises_at_completion_call_witness :
    llm_model_func_openrouter none remote_unused "ping" =
        Except.error (PyExn.runtimeError OPENROUTER_KEY_ERROR) ∧
      ∀ t : Int, rag_query (QueryOutcome.err OPENROUTER_KEY_ERROR) t =
        "[Error] Query failed: " ++ OPENROUTER_KEY_ERROR :=
  missing_key_raises_at_completion_call none remote_unused "ping" (Or.inl rfl)

/-- Claim C9: per provider, a cached engine is returned unchanged
without re-initialization; an uncached provider is initialized once,
cached, and returned identically by the following call; and an
initialization failure propagates, leaving the cached slot unset. -/
theorem get_rag_singleton_per_provider (env : Env) (st : RagState) (r : RagEngine) (e : PyExn) :
    (st.rag_or = some r → get_rag env st (some "openrouter") = Except.ok (r, st)) ∧
    (st.rag_or = none → env.init_or = Except.ok r →
      get_rag env st (some "openrouter") = Except.ok (r, { st with rag_or := some r }) ∧
      get_rag env { st with rag_or := some r } (some "openrouter") =
        Except.ok (r, { st with rag_or := some r })) ∧
    (st.rag_or = none → env.init_or = Except.error e →
      get_rag env st (some "openrouter") = Except.error e) ∧
    (st.rag_hf = some r → get_rag env st (some "hf") = Except.ok (r, st)) ∧
    (st.rag_hf = none → env.init_hf = Except.ok r →
      get_rag env st (some "hf") = Except.ok (r, { st with rag_hf := some r }) ∧
      get_rag env { st with rag_hf := some r } (some "hf") =
        Except.ok (r, { st with rag_hf := some r })) ∧
    (st.rag_hf = none → env.init_hf = Except.error e →
      get_rag env st (some "hf") = Except.error e) := by
  have hoo : py_lower "openrouter" = "openrouter" := rfl
  have hhf : py_lower "hf" = "hf" := rfl
  refine ⟨?_, ?_, ?_, ?_, ?_, ?_⟩
  · intro h; simp [get_rag, hoo, hhf, h]
  · intro h hi
    exact ⟨by simp [get_rag, hoo, hhf, h, hi], by simp [get_rag, hoo, hhf]⟩
  · intro h hi; simp [get_rag, hoo, hhf, h, hi]
  · intro h; simp [get_rag, hoo, hhf, h]
  · intro h hi
    exact ⟨by simp [get_rag, hoo, hhf, h, hi], by simp [get_rag, hoo, hhf]⟩
  · intro h hi; simp [get_rag, hoo, hhf, h, hi]

/-- Claim C9 witness: first call initializes and caches the openrouter
engine, second call returns the same cached instance. -/
theorem get_rag_singleton_per_provider_witness :
    get_rag env_query_ok {} (some "openrouter") =
        Except.ok ({ id := 8, llm_model_name := "openrouter:mistralai/mistral-nemo" },
          { rag_hf := none,
            rag_or := some { id := 8, llm_model_name := "openrouter:mistralai/mistral-nemo" } }) ∧
      get_rag env_query_ok
          { rag_hf := none,
            rag_or := some { id := 8, llm_model_name := "openrouter:mistralai/mistral-nemo" } }
          (some "openrouter") =
        Except.ok ({ id := 8, llm_model_name := "openrouter:mistralai/mistral-nemo" },
          { rag_hf := none,
            rag_or := some { id := 8, llm_model_name := "openrouter:mistralai/mistral-nemo" } }) :=
  (get_rag_singleton_per_provider env_query_ok {}
    { id := 8, llm_model_name := "openrouter:mistralai/mistral-nemo" }
    PyExn.attributeError).2.1 rfl rfl

/-- Claim C10: a missing or empty provider is replaced by `"hf"` before
lowercasing, and every normalized identifier other than exactly
`"openrouter"` — unknown strings included — is routed to the hf engine
rather than rejected, while identifiers lowercasing to `"openrouter"`
behave like `"openrouter"`. -/
theorem get_rag_provider_routing (env : Env) (st : RagState) :
    get_rag env st none = get_rag env st (some "hf") ∧
    get_rag env st (some "") = get_rag env st (some "hf") ∧
    (∀ s : String, s ≠ "" → py_lower s ≠ "openrouter" →
      get_rag env st (some s) = get_rag env st (some "hf")) ∧
    (∀ s : String, s ≠ "" → py_lower s = "openrouter" →
      get_rag env st (some s) = get_rag env st (some "openrouter")) := by
  have hoo : py_lower "openrouter" = "openrouter" := rfl
  have hhf : py_lower "hf" = "hf" := rfl
  refine ⟨rfl, rfl, ?_, ?_⟩
  · intro s hs hlow
    simp [get_rag, hs, hlow, hoo, hhf]
  · intro s hs hlow
    simp [get_rag, hs, hlow, hoo, hhf]

/-- Claim C10 witness: an unknown identifier routes to hf, and a
mixed-case `"OpenRouter"` routes to openrouter. -/
theorem get_rag_provider_routing_witness :
    get_rag env_query_ok {} (some "Mistral-Local") = get_rag env_query_ok {} (some "hf") ∧
      get_rag env_query_ok {} (some "OpenRouter") =
        get_rag env_query_ok {} (some "openrouter") :=
  ⟨(get_rag_provider_routing env_query_ok {}).2.2.1 "Mistral-Local" (by decide) (by decide),
   (get_rag_provider_routing env_query_ok {}).2.2.2 "OpenRouter" (by decide) (by decide)⟩
